import Mathlib

/-!
Verification development for the SCTE-35 splice_info_section decoder
(`scte35.py`).  The decoder is embedded shallowly: the bitstring cursor
becomes a list of remaining bits (`BS`), every `read`/`pos +=` operation
becomes an explicit state-passing function returning `Except`, and each
Python dict produced by the decoder becomes a structure whose
conditionally-set keys are `Option` fields.
-/

set_option maxRecDepth 100000

namespace Scte35

/-- Remaining (unconsumed) bits of the input buffer, most significant bit
of each byte first.  `bitarray.pos == bitarray.len` in the source
corresponds to this list being empty. -/
abbrev BS := List Bool

/-- Exceptions raised by the decoder: `bitstring` read/seek failures past
the end of the buffer, the `table_id` check at the top of `parse`, and the
unsupported-splice-command check. -/
inductive PyErr where
  | outOfData : PyErr
  | invalidTableId : Nat → PyErr
  | unsupportedCommand : Nat → PyErr
  deriving Repr, DecidableEq

/-- Big-endian value of a list of bits. -/
def bitsToNat (l : List Bool) : Nat :=
  l.foldl (fun a b => 2 * a + (if b then 1 else 0)) 0

/-- Embeds `bitarray.read("uint:n")`: consume `n` bits as a big-endian unsigned
integer; fails when fewer than `n` bits remain. -/
def readUint (n : Nat) (ba : BS) : Except PyErr (Nat × BS) :=
  if n ≤ ba.length then .ok (bitsToNat (ba.take n), ba.drop n)
  else .error .outOfData

/-- Embeds `bitarray.read("bool")`: consume one bit. -/
def readBool (ba : BS) : Except PyErr (Bool × BS) :=
  match ba with
  | [] => .error .outOfData
  | b :: rest => .ok (b, rest)

/-- Embeds `bitarray.pos += n`: advance past reserved bits; the `pos` setter
fails when the new position would exceed the buffer length. -/
def skip (n : Nat) (ba : BS) : Except PyErr BS :=
  if n ≤ ba.length then .ok (ba.drop n) else .error .outOfData

/-- Lowercase hexadecimal digit for a value `< 16`. -/
def hexDigitChar (n : Nat) : Char :=
  if n < 10 then Char.ofNat (48 + n) else Char.ofNat (87 + n)

/-- Hex rendering of a bit list, one digit per 4 bits (as `Bits.hex`). -/
def hexOfBits : List Bool → List Char
  | b1 :: b2 :: b3 :: b4 :: rest =>
      hexDigitChar (bitsToNat [b1, b2, b3, b4]) :: hexOfBits rest
  | _ => []

/-- Embeds `bitarray.read(n).hex` and `bitarray.read("hex:k")`: consume `n` bits
and render them as a lowercase hex string. -/
def readHexBits (n : Nat) (ba : BS) : Except PyErr (String × BS) :=
  if n ≤ ba.length then .ok (String.mk (hexOfBits (ba.take n)), ba.drop n)
  else .error .outOfData

/-- Embeds `int(s, 16)` for the lowercase hex strings produced by `readHexBits`. -/
def hexCharToNat (c : Char) : Nat :=
  if c.isDigit then c.toNat - 48 else c.toNat - 87

/-- Numeric value of a lowercase hex string. -/
def hexStrToNat (s : String) : Nat :=
  s.data.foldl (fun a c => 16 * a + hexCharToNat c) 0

/-- One byte as 8 bits, most significant first. -/
def byteToBits (b : Nat) : List Bool :=
  [b.testBit 7, b.testBit 6, b.testBit 5, b.testBit 4,
   b.testBit 3, b.testBit 2, b.testBit 1, b.testBit 0]

/-- Embeds `bitstring.BitString(bytes=input_bytes)`: the whole input as bits. -/
def bytesToBits (bs : List Nat) : BS :=
  (bs.map byteToBits).flatten

/-- Value of `SpliceDescriptor.AVAIL_DESCRIPTOR`. -/
def AVAIL_DESCRIPTOR : Nat := 0
/-- Value of `SpliceDescriptor.DTMF_DESCRIPTOR`. -/
def DTMF_DESCRIPTOR : Nat := 1
/-- Value of `SpliceDescriptor.SEGMENTATION_DESCRIPTOR`. -/
def SEGMENTATION_DESCRIPTOR : Nat := 2
/-- Value of `SpliceDescriptor.TIME_DESCRIPTOR`. -/
def TIME_DESCRIPTOR : Nat := 3

/-- The fixed `SEGMENTATION_TYPE_IDS` lookup table of the source, with its
exact keys and labels (including the mojibake in entry `"19"`). -/
def SEGMENTATION_TYPE_IDS : List (String × String) :=
  [("00", "Not Indicated"),
   ("01", "Content Identification"),
   ("10", "Program Start"),
   ("11", "Program End"),
   ("12", "Program Early Termination"),
   ("13", "Program Breakaway"),
   ("14", "Program Resumption"),
   ("15", "Program Runover Planned"),
   ("16", "Program Runover Unplanned"),
   ("17", "Program Overlap Start"),
   ("18", "Program Blackout Override"),
   ("19", "Program Start â€“ In Progress"),
   ("20", "Chapter Start"),
   ("21", "Chapter End"),
   ("22", "Break Start"),
   ("23", "Break End"),
   ("30", "Provider Advertisement Start"),
   ("31", "Provider Advertisement End"),
   ("32", "Distributor Advertisement Start"),
   ("33", "Distributor Advertisement End"),
   ("34", "Provider Placement Opportunity Start"),
   ("35", "Provider Placement Opportunity End"),
   ("36", "Distributor Placement Opportunity Start"),
   ("37", "Distributor Placement Opportunity End"),
   ("40", "Unscheduled Event Start"),
   ("41", "Unscheduled Event End"),
   ("50", "Network Start"),
   ("51", "Network End")]

/-- The `splice_time` dict: `pts_time` is present (a key exists) iff
`time_specified_flag` is set. -/
structure SpliceTime where
  time_specified_flag : Bool
  pts_time : Option Nat := none
  deriving Repr, DecidableEq

/-- The `break_duration` dict. -/
structure BreakDuration where
  auto_return : Bool
  duration : Nat
  deriving Repr, DecidableEq

/-- One entry of the splice_insert component loop; the `splice_time` key
is always present but holds `None` unless `splice_immediate_flag` is set. -/
structure SIComponent where
  tag : Nat
  splice_time : Option SpliceTime := none
  deriving Repr, DecidableEq

/-- The `ssi` dict of `__parse_splice_insert`.  When the cancel indicator
is set the function returns `None` instead of this record, so every
returned record has all the unconditional keys of the non-cancel branch;
`splice_time`, `component_count` and `break_duration` remain `Option`s
because their keys are created only under the corresponding flags. -/
structure SpliceInsert where
  splice_id : Nat
  components : List SIComponent := []
  splice_event_cancel_indicator : Bool
  out_of_network_indicator : Bool := false
  program_splice_flag : Bool := false
  duration_flag : Bool := false
  splice_immediate_flag : Bool := false
  splice_time : Option SpliceTime := none
  component_count : Option Nat := none
  break_duration : Option BreakDuration := none
  unique_program_id : Nat := 0
  avail_num : Nat := 0
  avails_expected : Nat := 0
  deriving Repr, DecidableEq

/-- The dict built by `__parse_time_signal`. -/
structure TimeSignal where
  splice_time : SpliceTime
  deriving Repr, DecidableEq

/-- One entry of the segmentation-descriptor component loop. -/
structure SegComponent where
  component_tag : Nat
  pts_offset : Nat
  deriving Repr, DecidableEq

/-- The dict built by `__parse_segmentation_descriptor`; keys created only
inside conditionals are `Option` fields. -/
structure SegmentationDescriptor where
  splice_descriptor_tag : Nat
  descriptor_length : Nat
  identifier : Nat := 0
  segmentation_event_id : Nat := 0
  segmentation_event_cancel_indicator : Bool := false
  program_segmentation_flag : Option Bool := none
  segmentation_duration_flag : Option Bool := none
  delivery_not_restricted_flag : Option Bool := none
  web_delivery_allowed_flag : Option Bool := none
  no_regional_blackout_flag : Option Bool := none
  archive_allowed_flag : Option Bool := none
  device_restrictions : Option Nat := none
  component_count : Option Nat := none
  components : Option (List SegComponent) := none
  segmentation_duration : Option Nat := none
  segmentation_upid_type : Option String := none
  segmentation_upid_length : Option Nat := none
  segmentation_upid : Option String := none
  segmentation_type_id : Option String := none
  segment_num : Option Nat := none
  segments_expected : Option Nat := none
  sub_segment_num : Option Nat := none
  sub_segments_expected : Option Nat := none
  deriving Repr, DecidableEq

/-- A decoded splice descriptor: either a fully parsed segmentation
descriptor (tag 2) or the `{tag, descriptor_length}` stub dict used for
every other tag (and for the truncated tag-at-end-of-buffer case). -/
inductive SpliceDesc where
  | seg : SegmentationDescriptor → SpliceDesc
  | generic : Nat → Nat → SpliceDesc
  deriving Repr, DecidableEq

/-- The decoded splice command: dict from `__parse_splice_insert`
(possibly `None`, hence the `Option` inside) or from
`__parse_time_signal`. -/
inductive SpliceCommand where
  | spliceInsert : SpliceInsert → SpliceCommand
  | timeSignal : TimeSignal → SpliceCommand
  deriving Repr, DecidableEq

/-- The `splice_info_section` dict returned by `parse`. -/
structure SpliceInfoSection where
  section_syntax_indicator : Bool
  private_indicator : Bool
  section_length : Nat
  protocol_version : Nat
  encrypted_packet : Bool
  encryption_algorithm : Nat
  pts_adjustment : Nat
  cw_index : Nat
  tier : String
  splice_command_length : Nat
  splice_command_type : Nat
  splice_command : Option SpliceCommand
  splice_descriptor_loop_length : Nat
  splice_descriptors : Option (List SpliceDesc)
  deriving Repr, DecidableEq

/-- Embeds `__parse_splice_time`. -/
def parse_splice_time (ba : BS) : Except PyErr (SpliceTime × BS) :=
  match readBool ba with
  | .error e => .error e
  | .ok (tsf, ba) =>
    if tsf then
      match skip 6 ba with
      | .error e => .error e
      | .ok ba =>
        match readUint 33 ba with
        | .error e => .error e
        | .ok (pts, ba) =>
            .ok ({ time_specified_flag := true, pts_time := some pts }, ba)
    else
      match skip 7 ba with
      | .error e => .error e
      | .ok ba => .ok ({ time_specified_flag := false, pts_time := none }, ba)

/-- Embeds `__parse_break_duration`. -/
def parse_break_duration (ba : BS) : Except PyErr (BreakDuration × BS) :=
  match readBool ba with
  | .error e => .error e
  | .ok (ar, ba) =>
    match skip 6 ba with
    | .error e => .error e
    | .ok ba =>
      match readUint 33 ba with
      | .error e => .error e
      | .ok (dur, ba) => .ok ({ auto_return := ar, duration := dur }, ba)

/-- The component loop of `__parse_splice_insert`: each component reads a
tag, presets `splice_time = None` and overwrites it with a parsed
`splice_time` only when `splice_immediate_flag` is set. -/
def parse_si_components (sif : Bool) : Nat → BS → Except PyErr (List SIComponent × BS)
  | 0, ba => .ok ([], ba)
  | n + 1, ba =>
    match readUint 8 ba with
    | .error e => .error e
    | .ok (tag, ba) =>
      match ((if sif then
                match parse_splice_time ba with
                | .error e => .error e
                | .ok (st, ba) => .ok (some st, ba)
              else .ok (none, ba)) : Except PyErr (Option SpliceTime × BS)) with
      | .error e => .error e
      | .ok (st, ba) =>
        match parse_si_components sif n ba with
        | .error e => .error e
        | .ok (rest, ba) => .ok ({ tag := tag, splice_time := st } :: rest, ba)

/-- Embeds `__parse_splice_insert`.  Mirrors the source exactly, including the
fact that `return ssi` sits inside the `if not cancel` branch: when the
cancel indicator is set the function falls off the end and returns `None`
(`.ok (none, ba)` here). -/
def parse_splice_insert (ba : BS) : Except PyErr (Option SpliceInsert × BS) :=
  match readUint 32 ba with
  | .error e => .error e
  | .ok (splice_event_id, ba) =>
  match readBool ba with
  | .error e => .error e
  | .ok (cancel, ba) =>
  match skip 7 ba with
  | .error e => .error e
  | .ok ba =>
  if cancel then
    -- Python: the dict is built but never returned; implicit `return None`.
    .ok (none, ba)
  else
  match readBool ba with
  | .error e => .error e
  | .ok (oni, ba) =>
  match readBool ba with
  | .error e => .error e
  | .ok (psf, ba) =>
  match readBool ba with
  | .error e => .error e
  | .ok (df, ba) =>
  match readBool ba with
  | .error e => .error e
  | .ok (sif, ba) =>
  match skip 4 ba with
  | .error e => .error e
  | .ok ba =>
  match ((if psf ∧ ¬ sif then
            match parse_splice_time ba with
            | .error e => .error e
            | .ok (st, ba) => .ok (some st, ba)
          else .ok (none, ba)) : Except PyErr (Option SpliceTime × BS)) with
  | .error e => .error e
  | .ok (stime, ba) =>
  match ((if ¬ psf then
            match readUint 8 ba with
            | .error e => .error e
            | .ok (cc, ba) =>
              match parse_si_components sif cc ba with
              | .error e => .error e
              | .ok (cs, ba) => .ok ((some cc, cs), ba)
          else .ok ((none, []), ba)) :
            Except PyErr ((Option Nat × List SIComponent) × BS)) with
  | .error e => .error e
  | .ok ((ccount, comps), ba) =>
  match ((if df then
            match parse_break_duration ba with
            | .error e => .error e
            | .ok (bd, ba) => .ok (some bd, ba)
          else .ok (none, ba)) : Except PyErr (Option BreakDuration × BS)) with
  | .error e => .error e
  | .ok (bdur, ba) =>
  match readUint 16 ba with
  | .error e => .error e
  | .ok (upid, ba) =>
  match readUint 8 ba with
  | .error e => .error e
  | .ok (an, ba) =>
  match readUint 8 ba with
  | .error e => .error e
  | .ok (ae, ba) =>
    .ok (some { splice_id := splice_event_id,
                components := comps,
                splice_event_cancel_indicator := false,
                out_of_network_indicator := oni,
                program_splice_flag := psf,
                duration_flag := df,
                splice_immediate_flag := sif,
                splice_time := stime,
                component_count := ccount,
                break_duration := bdur,
                unique_program_id := upid,
                avail_num := an,
                avails_expected := ae }, ba)

/-- Embeds `__parse_time_signal`. -/
def parse_time_signal (ba : BS) : Except PyErr (TimeSignal × BS) :=
  match parse_splice_time ba with
  | .error e => .error e
  | .ok (st, ba) => .ok ({ splice_time := st }, ba)

/-- Embeds `__parse_segmentation_upid`: a flat hex dump of `length` bytes; the
`upid_type` argument is accepted but unused, as in the source. -/
def parse_segmentation_upid (ba : BS) (upid_type : Nat) (length : Nat) :
    Except PyErr (String × BS) :=
  readHexBits (length * 8) ba

/-- The component loop of `__parse_segmentation_descriptor`: each
component reads an 8-bit tag, skips 7 reserved bits and reads a 33-bit
`pts_offset`. -/
def parse_seg_components : Nat → BS → Except PyErr (List SegComponent × BS)
  | 0, ba => .ok ([], ba)
  | n + 1, ba =>
    match readUint 8 ba with
    | .error e => .error e
    | .ok (ctag, ba) =>
      match skip 7 ba with
      | .error e => .error e
      | .ok ba =>
        match readUint 33 ba with
        | .error e => .error e
        | .ok (off, ba) =>
          match parse_seg_components n ba with
          | .error e => .error e
          | .ok (rest, ba) =>
              .ok ({ component_tag := ctag, pts_offset := off } :: rest, ba)

/-- Source lines 274-275: when the raw hex code occurs in
`SEGMENTATION_TYPE_IDS`, the stored `segmentation_type_id` is replaced by
the table's label; otherwise the raw hex string is kept.  At the
membership test the stored `segmentation_type_id` dict value is still the
raw code `raw`. -/
def apply_type_lookup (d : SegmentationDescriptor) (raw : String) (ba : BS) :
    Except PyErr (SegmentationDescriptor × BS) :=
  match SEGMENTATION_TYPE_IDS.lookup raw with
  | some label => .ok ({ d with segmentation_type_id := some label }, ba)
  | none => .ok (d, ba)

/-- Final part of `__parse_segmentation_descriptor` (source lines
266-277): reads the raw two-hex-digit `segmentation_type_id`,
`segment_num` and `segments_expected`; the sub-segment fields are read
iff the raw (pre-lookup) hex code is `"34"` or `"36"`; afterwards the
table substitution of lines 274-275 (`apply_type_lookup`) runs on either
path. -/
def parse_seg_type_tail (d : SegmentationDescriptor) (ba : BS) :
    Except PyErr (SegmentationDescriptor × BS) :=
  match readHexBits 8 ba with
  | .error e => .error e
  | .ok (raw, ba) =>
  let d := { d with segmentation_type_id := some raw }
  match readUint 8 ba with
  | .error e => .error e
  | .ok (sn, ba) =>
  let d := { d with segment_num := some sn }
  match readUint 8 ba with
  | .error e => .error e
  | .ok (se, ba) =>
  let d := { d with segments_expected := some se }
  if raw = "34" ∨ raw = "36" then
    match readUint 8 ba with
    | .error e => .error e
    | .ok (ssn, ba) =>
      match readUint 8 ba with
      | .error e => .error e
      | .ok (sse, ba) =>
        apply_type_lookup { d with sub_segment_num := some ssn,
                                   sub_segments_expected := some sse } raw ba
  else
    apply_type_lookup d raw ba

/-- Embeds `__parse_segmentation_descriptor`. -/
def parse_segmentation_descriptor (ba : BS) (tag : Nat) (length : Nat) :
    Except PyErr (SegmentationDescriptor × BS) :=
  let d : SegmentationDescriptor :=
    { splice_descriptor_tag := tag, descriptor_length := length }
  match readUint 32 ba with
  | .error e => .error e
  | .ok (identifier, ba) =>
  let d := { d with identifier := identifier }
  -- descriptor_data_length is computed but never used in the source
  let _descriptor_data_length := d.descriptor_length - 4
  match readUint 32 ba with
  | .error e => .error e
  | .ok (event_id, ba) =>
  let d := { d with segmentation_event_id := event_id }
  match readBool ba with
  | .error e => .error e
  | .ok (cancel, ba) =>
  let d := { d with segmentation_event_cancel_indicator := cancel }
  match skip 7 ba with
  | .error e => .error e
  | .ok ba =>
  if cancel then .ok (d, ba)
  else
  match readBool ba with
  | .error e => .error e
  | .ok (psf, ba) =>
  match readBool ba with
  | .error e => .error e
  | .ok (sdf, ba) =>
  match readBool ba with
  | .error e => .error e
  | .ok (dnr, ba) =>
  let d := { d with program_segmentation_flag := some psf,
                    segmentation_duration_flag := some sdf,
                    delivery_not_restricted_flag := some dnr }
  match ((if ¬ dnr then
            match readBool ba with
            | .error e => .error e
            | .ok (web, ba) =>
            match readBool ba with
            | .error e => .error e
            | .ok (nrb, ba) =>
            match readBool ba with
            | .error e => .error e
            | .ok (arch, ba) =>
            match readUint 2 ba with
            | .error e => .error e
            | .ok (dev, ba) =>
                .ok ({ d with web_delivery_allowed_flag := some web,
                              no_regional_blackout_flag := some nrb,
                              archive_allowed_flag := some arch,
                              device_restrictions := some dev }, ba)
          else
            match skip 5 ba with
            | .error e => .error e
            | .ok ba => .ok (d, ba)) :
            Except PyErr (SegmentationDescriptor × BS)) with
  | .error e => .error e
  | .ok (d, ba) =>
  match ((if ¬ psf then
            match readUint 8 ba with
            | .error e => .error e
            | .ok (cc, ba) =>
              match parse_seg_components cc ba with
              | .error e => .error e
              | .ok (cs, ba) =>
                  .ok ({ d with component_count := some cc,
                                components := some cs }, ba)
          else .ok (d, ba)) : Except PyErr (SegmentationDescriptor × BS)) with
  | .error e => .error e
  | .ok (d, ba) =>
  match ((if sdf then
            match readUint 40 ba with
            | .error e => .error e
            | .ok (dur, ba) =>
                .ok ({ d with segmentation_duration := some dur }, ba)
          else .ok (d, ba)) : Except PyErr (SegmentationDescriptor × BS)) with
  | .error e => .error e
  | .ok (d, ba) =>
  match readHexBits 8 ba with
  | .error e => .error e
  | .ok (upid_type, ba) =>
  match readUint 8 ba with
  | .error e => .error e
  | .ok (upid_len, ba) =>
  match parse_segmentation_upid ba (hexStrToNat upid_type) upid_len with
  | .error e => .error e
  | .ok (upid, ba) =>
  let d := { d with segmentation_upid_type := some upid_type,
                    segmentation_upid_length := some upid_len,
                    segmentation_upid := some upid }
  parse_seg_type_tail d ba

/-- The `while length:` loop of `__parse_splice_descriptors`, indexed by
a fuel argument.  The loop body consumes at least 16 bits before every
recursive call (8-bit tag plus 8-bit descriptor length), so the fuel
`ba.length + 1` supplied by `parse_splice_descriptors` can never be
exhausted; the fuel-0 branch is unreachable.  `length` is an `Int`
because the source's byte budget can go negative, and the Python loop
keeps running on any non-zero value. -/
def descriptor_loop_fuel :
    Nat → Int → BS → List SpliceDesc → Except PyErr (List SpliceDesc × BS)
  | 0, _, _, _ => .error .outOfData
  | fuel + 1, length, ba, results =>
    if length = 0 then .ok (results, ba)
    else
      match readUint 8 ba with
      | .error e => .error e
      | .ok (splice_descriptor_tag, ba) =>
        if ba = [] then
          -- tag read ended exactly at end-of-buffer: emit a zero-length
          -- stub and force the budget to zero
          .ok (results ++ [SpliceDesc.generic splice_descriptor_tag 0], ba)
        else
          match readUint 8 ba with
          | .error e => .error e
          | .ok (descriptor_length, ba) =>
            let length := length - ((descriptor_length : Int) + 2)
            if splice_descriptor_tag = SEGMENTATION_DESCRIPTOR then
              match parse_segmentation_descriptor ba splice_descriptor_tag
                      descriptor_length with
              | .error e => .error e
              | .ok (d, ba) =>
                  descriptor_loop_fuel fuel length ba
                    (results ++ [SpliceDesc.seg d])
            else
              -- the stub records tag and length only; the source does NOT
              -- advance the cursor past the descriptor body here
              descriptor_loop_fuel fuel length ba
                (results ++ [SpliceDesc.generic splice_descriptor_tag
                               descriptor_length])

/-- Embeds `__parse_splice_descriptors`. -/
def parse_splice_descriptors (ba : BS) (length : Int) :
    Except PyErr (List SpliceDesc × BS) :=
  descriptor_loop_fuel (ba.length + 1) length ba []

/-- Embeds `parse` up to and including the `splice_descriptor_loop_length` read
(source lines 94-129): header fields, command dispatch, and the preset
`splice_descriptors = None`.  The descriptor phase is in `parse`. -/
def parse_section_body (ba : BS) : Except PyErr (SpliceInfoSection × BS) :=
  match readUint 8 ba with
  | .error e => .error e
  | .ok (table_id, ba) =>
  if table_id ≠ 0xfc then .error (.invalidTableId table_id)
  else
  match readBool ba with
  | .error e => .error e
  | .ok (ssi_flag, ba) =>
  match readBool ba with
  | .error e => .error e
  | .ok (pi_flag, ba) =>
  match skip 2 ba with
  | .error e => .error e
  | .ok ba =>
  match readUint 12 ba with
  | .error e => .error e
  | .ok (slen, ba) =>
  match readUint 8 ba with
  | .error e => .error e
  | .ok (pv, ba) =>
  match readBool ba with
  | .error e => .error e
  | .ok (ep, ba) =>
  match readUint 6 ba with
  | .error e => .error e
  | .ok (ea, ba) =>
  match readUint 33 ba with
  | .error e => .error e
  | .ok (pts, ba) =>
  match readUint 8 ba with
  | .error e => .error e
  | .ok (cw, ba) =>
  match readHexBits 12 ba with
  | .error e => .error e
  | .ok (tier, ba) =>
  match readUint 12 ba with
  | .error e => .error e
  | .ok (scl, ba) =>
  match readUint 8 ba with
  | .error e => .error e
  | .ok (sct, ba) =>
  match ((if sct = 5 then
            match parse_splice_insert ba with
            | .error e => .error e
            | .ok (osi, ba) => .ok (osi.map SpliceCommand.spliceInsert, ba)
          else if sct = 6 then
            match parse_time_signal ba with
            | .error e => .error e
            | .ok (ts, ba) => .ok (some (SpliceCommand.timeSignal ts), ba)
          else .error (.unsupportedCommand sct)) :
            Except PyErr (Option SpliceCommand × BS)) with
  | .error e => .error e
  | .ok (cmd, ba) =>
  match readUint 16 ba with
  | .error e => .error e
  | .ok (dll, ba) =>
    .ok ({ section_syntax_indicator := ssi_flag,
           private_indicator := pi_flag,
           section_length := slen,
           protocol_version := pv,
           encrypted_packet := ep,
           encryption_algorithm := ea,
           pts_adjustment := pts,
           cw_index := cw,
           tier := tier,
           splice_command_length := scl,
           splice_command_type := sct,
           splice_command := cmd,
           splice_descriptor_loop_length := dll,
           splice_descriptors := none }, ba)

/-- Embeds `SCTE35_Parser.parse`: the descriptor loop is attempted only for a
positive loop length, and any exception it raises is caught (and printed)
leaving `splice_descriptors` at its preset `None`. -/
def parse (input_bytes : List Nat) : Except PyErr SpliceInfoSection :=
  match parse_section_body (bytesToBits input_bytes) with
  | .error e => .error e
  | .ok (s, ba) =>
    if 0 < s.splice_descriptor_loop_length then
      match parse_splice_descriptors ba (s.splice_descriptor_loop_length : Int) with
      | .ok (ds, _) => .ok { s with splice_descriptors := some ds }
      | .error _ => .ok s
    else .ok s

/-! ### Helper lemmas -/

set_option maxRecDepth 8192 in
/-- Reading back the 8 bits of a byte yields the byte. -/
lemma bitsToNat_byteToBits : ∀ b : Nat, b < 256 → bitsToNat (byteToBits b) = b := by
  decide

lemma bytesToBits_cons (b : Nat) (bs : List Nat) :
    bytesToBits (b :: bs) = byteToBits b ++ bytesToBits bs := by
  simp [bytesToBits]

lemma length_byteToBits (b : Nat) : (byteToBits b).length = 8 := rfl

/-- An 8-bit read at a byte boundary returns that byte. -/
lemma readUint_eight_byte (b : Nat) (hb : b < 256) (rest : BS) :
    readUint 8 (byteToBits b ++ rest) = .ok (b, rest) := by
  unfold readUint
  rw [if_pos (by simp [length_byteToBits])]
  rw [← length_byteToBits b, List.take_left, List.drop_left,
    bitsToNat_byteToBits b hb]

/-- Every successful run of `parse_section_body` leaves the preset
`splice_descriptors = None` in place. -/
lemma parse_section_body_descriptors_none :
    ∀ {ba ba' : BS} {s : SpliceInfoSection},
      parse_section_body ba = .ok (s, ba') → s.splice_descriptors = none := by
  intro ba ba' s h
  unfold parse_section_body at h
  repeat' split at h
  all_goals first
    | exact Except.noConfusion h
    | (injection h with h1; injection h1 with h2 h3; subst h2; rfl)

/-- With a negative byte budget the descriptor loop does not stop: it
either raises or appends at least one more descriptor. -/
lemma descriptor_loop_fuel_neg :
    ∀ (fuel : Nat) (len : Int) (ba : BS) (acc : List SpliceDesc), len < 0 →
      (∃ e, descriptor_loop_fuel fuel len ba acc = .error e) ∨
      (∃ res ba', descriptor_loop_fuel fuel len ba acc = .ok (res, ba') ∧
        acc.length < res.length) := by
  intro fuel
  induction fuel with
  | zero => intro len ba acc _; exact .inl ⟨.outOfData, rfl⟩
  | succ n ih =>
    intro len ba acc hlen
    simp only [descriptor_loop_fuel]
    rw [if_neg (by omega : ¬ len = 0)]
    cases h1 : readUint 8 ba with
    | error e => exact .inl ⟨e, rfl⟩
    | ok p =>
      obtain ⟨tag, ba1⟩ := p
      dsimp only
      by_cases hba : ba1 = []
      · rw [if_pos hba]
        exact .inr ⟨acc ++ [SpliceDesc.generic tag 0], ba1, rfl, by simp⟩
      · rw [if_neg hba]
        cases h2 : readUint 8 ba1 with
        | error e => exact .inl ⟨e, rfl⟩
        | ok q =>
          obtain ⟨dlen, ba2⟩ := q
          dsimp only
          have hneg : len - ((dlen : Int) + 2) < 0 := by omega
          by_cases htag : tag = SEGMENTATION_DESCRIPTOR
          · rw [if_pos htag]
            cases h3 : parse_segmentation_descriptor ba2 tag dlen with
            | error e => exact .inl ⟨e, rfl⟩
            | ok r =>
              obtain ⟨d, ba3⟩ := r
              dsimp only
              rcases ih _ ba3 (acc ++ [SpliceDesc.seg d]) hneg with
                ⟨e, he⟩ | ⟨res, ba', heq, hlt⟩
              · exact .inl ⟨e, he⟩
              · refine .inr ⟨res, ba', heq, ?_⟩
                simp at hlt
                omega
          · rw [if_neg htag]
            rcases ih _ ba2 (acc ++ [SpliceDesc.generic tag dlen]) hneg with
              ⟨e, he⟩ | ⟨res, ba', heq, hlt⟩
            · exact .inl ⟨e, he⟩
            · refine .inr ⟨res, ba', heq, ?_⟩
              simp at hlt
              omega

/-- The splice_insert component loop returns exactly `n` components, and
each carries a parsed `splice_time` iff `splice_immediate_flag` was set. -/
lemma parse_si_components_spec (sif : Bool) :
    ∀ (n : Nat) (ba ba' : BS) (cs : List SIComponent),
      parse_si_components sif n ba = .ok (cs, ba') →
      cs.length = n ∧ ∀ c ∈ cs, c.splice_time.isSome = sif := by
  intro n
  induction n with
  | zero =>
    intro ba ba' cs h
    simp only [parse_si_components] at h
    injection h with h1
    injection h1 with h2 h3
    subst h2
    exact ⟨rfl, by simp⟩
  | succ n ih =>
    intro ba ba' cs h
    simp only [parse_si_components] at h
    repeat' split at h
    all_goals try exact Except.noConfusion h
    all_goals
      injection h with h1
      injection h1 with h2 h3
      subst h2
    rename_i x2 tag ba2 hread x1 st ba1 hif x0 rest ba0 hrec
    have hih := ih _ _ _ hrec
    constructor
    · simp [hih.1]
    · intro c hc
      rcases List.mem_cons.mp hc with hc | hc
      · subst hc
        cases sif with
        | false =>
          rw [if_neg (by simp)] at hif
          injection hif with h1
          injection h1 with h2 h4
          simp [← h2]
        | true =>
          rw [if_pos rfl] at hif
          split at hif
          · exact Except.noConfusion hif
          · injection hif with h1
            injection h1 with h2 h4
            simp [← h2]
      · exact hih.2 c hc

/-- Characterization of every successfully decoded (non-`None`)
splice_insert record: the cancel indicator is necessarily clear, the
`components` key always holds a list (empty when `program_splice_flag`
is set), and in the component branch the recorded `component_count`
matches the list length with per-component `splice_time` presence
governed by `splice_immediate_flag`. -/
lemma parse_splice_insert_ok_some :
    ∀ {ba ba' : BS} {si : SpliceInsert},
      parse_splice_insert ba = .ok (some si, ba') →
      si.splice_event_cancel_indicator = false ∧
      (si.program_splice_flag = true → si.components = [] ∧ si.component_count = none) ∧
      (si.program_splice_flag = false →
        si.component_count = some si.components.length ∧
        ∀ c ∈ si.components, c.splice_time.isSome = si.splice_immediate_flag) := by
  intro ba ba' si h
  unfold parse_splice_insert at h
  repeat' split at h
  all_goals try exact Except.noConfusion h
  all_goals
    injection h with h1
    injection h1 with h2 h3
  all_goals try exact Option.noConfusion h2
  injection h2 with h4
  subst h4
  refine ⟨rfl, ?_, ?_⟩
  · intro hp
    dsimp only at hp ⊢
    subst hp
    rename_i hpsf hstime hcomps
    rw [if_neg (by decide : ¬ (¬ true = true))] at hcomps
    injection hcomps with hA
    injection hA with hB hC
    injection hB with hD hE
    subst hD
    subst hE
    exact ⟨rfl, rfl⟩
  · intro hp
    dsimp only at hp ⊢
    subst hp
    rename_i hpsf hstime hcomps
    rw [if_pos (by decide : ¬ false = true)] at hcomps
    split at hcomps
    · exact Except.noConfusion hcomps
    split at hcomps
    · exact Except.noConfusion hcomps
    rename_i cc bax hread cs bay hsplit
    injection hcomps with hA
    injection hA with hB hC
    injection hB with hD hE
    subst hD
    subst hE
    have hspec := parse_si_components_spec _ _ _ _ _ hsplit
    exact ⟨by rw [hspec.1], hspec.2⟩

/-- The type-id table substitution touches only `segmentation_type_id`;
in particular it preserves the sub-segment fields. -/
lemma apply_type_lookup_subs :
    ∀ {d d' : SegmentationDescriptor} {raw : String} {ba ba' : BS},
      apply_type_lookup d raw ba = .ok (d', ba') →
      d'.sub_segment_num = d.sub_segment_num ∧
      d'.sub_segments_expected = d.sub_segments_expected := by
  intro d d' raw ba ba' h
  unfold apply_type_lookup at h
  split at h
  all_goals
    injection h with h1
    injection h1 with h2 h3
    subst h2
    exact ⟨rfl, rfl⟩

/-! ### Concrete inputs used by the claim theorems -/

/-- A splice_insert section (command type 5) whose splice_insert body has
the cancel indicator set: event id 7, cancel bit 1, 7 reserved bits. -/
def C2_section_bytes : List Nat :=
  [0xFC, 0, 0, 0, 0, 0, 0, 0, 0, 0, 0, 0, 0, 0x05, 0, 0, 0, 7, 0x80, 0, 0]

/-- A time_signal section whose descriptor loop length claims 10 bytes
but whose descriptor region `01 00 02 05 AA` fails mid-loop: descriptor
one (tag 1, length 0) decodes, then the segmentation descriptor (tag 2)
runs out of data reading its 32-bit identifier. -/
def C3_section_bytes : List Nat :=
  [0xFC, 0, 0, 0, 0, 0, 0, 0, 0, 0, 0, 0, 0, 0x06, 0, 0, 0x0A,
   0x01, 0x00, 0x02, 0x05, 0xAA]

/-- The section record decoded from `C3_section_bytes`. -/
def C3_section : SpliceInfoSection :=
  { section_syntax_indicator := false,
    private_indicator := false,
    section_length := 0,
    protocol_version := 0,
    encrypted_packet := false,
    encryption_algorithm := 0,
    pts_adjustment := 0,
    cw_index := 0,
    tier := "000",
    splice_command_length := 0,
    splice_command_type := 6,
    splice_command := some (.timeSignal
      { splice_time := { time_specified_flag := false, pts_time := none } }),
    splice_descriptor_loop_length := 10,
    splice_descriptors := none }

/-- A time_signal section with `splice_descriptor_loop_length = 0`. -/
def C9_section_bytes : List Nat :=
  [0xFC, 0, 0, 0, 0, 0, 0, 0, 0, 0, 0, 0, 0, 0x06, 0, 0, 0]

/-- The section record decoded from `C9_section_bytes`. -/
def C9_section : SpliceInfoSection :=
  { section_syntax_indicator := false,
    private_indicator := false,
    section_length := 0,
    protocol_version := 0,
    encrypted_packet := false,
    encryption_algorithm := 0,
    pts_adjustment := 0,
    cw_index := 0,
    tier := "000",
    splice_command_length := 0,
    splice_command_type := 6,
    splice_command := some (.timeSignal
      { splice_time := { time_specified_flag := false, pts_time := none } }),
    splice_descriptor_loop_length := 0,
    splice_descriptors := none }

/-- splice_insert body: event id 2, cancel 0, all flags 0
(`program_splice_flag = false`), one component with tag 7, then
unique_program_id, avail_num, avails_expected. -/
def C5_input : List Nat := [0, 0, 0, 2, 0, 0, 1, 7, 0, 0, 0, 0]

/-- The record decoded from `C5_input`. -/
def C5_si : SpliceInsert :=
  { splice_id := 2,
    components := [{ tag := 7, splice_time := none }],
    splice_event_cancel_indicator := false,
    out_of_network_indicator := false,
    program_splice_flag := false,
    duration_flag := false,
    splice_immediate_flag := false,
    splice_time := none,
    component_count := some 1,
    break_duration := none,
    unique_program_id := 0,
    avail_num := 0,
    avails_expected := 0 }

/-- splice_insert body: event id 9, cancel 0, `program_splice_flag = true`
(flags byte 0x40), a not-time-specified splice_time byte, then
unique_program_id, avail_num, avails_expected. -/
def C10_input : List Nat := [0, 0, 0, 9, 0, 0x40, 0, 0, 0, 0, 0]

/-- The record decoded from `C10_input`. -/
def C10_si : SpliceInsert :=
  { splice_id := 9,
    components := [],
    splice_event_cancel_indicator := false,
    out_of_network_indicator := false,
    program_splice_flag := true,
    duration_flag := false,
    splice_immediate_flag := false,
    splice_time := some { time_specified_flag := false, pts_time := none },
    component_count := none,
    break_duration := none,
    unique_program_id := 0,
    avail_num := 0,
    avails_expected := 0 }

/-- Descriptor record entering the type-id tail, as built by the earlier
phases of `parse_segmentation_descriptor` (sub-segment fields unset). -/
def C7_d0 : SegmentationDescriptor :=
  { splice_descriptor_tag := 2, descriptor_length := 9 }

/-- Result of the type-id tail on raw code `"34"`, segment_num 1,
segments_expected 2, sub-segment fields 3 and 4. -/
def C7_d : SegmentationDescriptor :=
  { splice_descriptor_tag := 2, descriptor_length := 9,
    segmentation_type_id := some "Provider Placement Opportunity Start",
    segment_num := some 1, segments_expected := some 2,
    sub_segment_num := some 3, sub_segments_expected := some 4 }

/-- A 15-byte segmentation descriptor body: identifier "CUEI", event id 1,
cancel 0, flags byte 0xA0 (program_segmentation_flag set, duration flag
clear, delivery_not_restricted set), upid type 0 and length 0, then the
type-id byte, segment_num 1, segments_expected 2. -/
def C8_body (type_id_byte : Nat) : List Nat :=
  [0x43, 0x55, 0x45, 0x49, 0, 0, 0, 1, 0, 0xA0, 0, 0, type_id_byte, 1, 2]

/-! ### Claim theorems -/

/-- Claim C1 (code bug): the claim states that after reading the tag and
length of a non-segmentation descriptor the cursor advances `length*8`
bits past the unparsed body so the next tag is read at the correct
position.  The code omits that advance even though the loop's byte budget
is decremented as if the body had been consumed.  Evaluating the loop on
region `01 02 AA BB 05 00 EE` with budget 7 shows the desynchronization:
after the stub for tag 1/length 2, the next "tag" read is `0xAA` — the
first body byte — instead of `0x05`, and the following stubs are garbage. -/
theorem claim_C1_generic_descriptor_no_skip :
    parse_splice_descriptors (bytesToBits [0x01, 0x02, 0xAA, 0xBB, 0x05, 0x00, 0xEE]) 7 =
      .ok ([SpliceDesc.generic 1 2, SpliceDesc.generic 170 187,
            SpliceDesc.generic 5 0, SpliceDesc.generic 238 0], []) := by
  rfl

/-- Claim C2 (code bug): for a splice_insert with the cancel indicator
set, the claim (and the source's evident intent) is a short record holding
`spliceEventId` and the cancel indicator; but the source's `return ssi`
sits inside the `if not cancel` branch, so the function returns `None` and
the section's `splice_command` is `None`. -/
theorem claim_C2_cancel_returns_none :
    parse_splice_insert (bytesToBits [0, 0, 0, 7, 0x80]) = .ok (none, []) ∧
    Except.map (fun s => s.splice_command) (parse C2_section_bytes) = .ok none := by
  exact ⟨rfl, rfl⟩

/-- Claim C3 counterexample: on `C3_section_bytes` the first descriptor of
the loop decodes fine on its own, the loop then raises mid-way, and the
returned section has `splice_descriptors = None` — not the successfully
decoded prefix the claim requires. -/
theorem claim_C3_counterexample :
    parse C3_section_bytes = .ok C3_section ∧
    C3_section.splice_descriptors = none ∧
    parse_splice_descriptors (bytesToBits [0x01, 0x00, 0x02, 0x05, 0xAA]) 10 =
      .error .outOfData ∧
    parse_splice_descriptors (bytesToBits [0x01, 0x00]) 2 =
      .ok ([SpliceDesc.generic 1 0], []) := by
  exact ⟨rfl, rfl, rfl, rfl⟩

/-- Claim C3 amended: when the descriptor loop raises, the decode still
returns the section with all header and command fields intact, but
`splice_descriptors` is `None` — the descriptors decoded before the
failure are discarded, not kept as a partial sequence. -/
theorem claim_C3_amended (input_bytes : List Nat) (s : SpliceInfoSection)
    (ba : BS) (e : PyErr)
    (h1 : parse_section_body (bytesToBits input_bytes) = .ok (s, ba))
    (h2 : 0 < s.splice_descriptor_loop_length)
    (h3 : parse_splice_descriptors ba (s.splice_descriptor_loop_length : Int) =
      .error e) :
    parse input_bytes = .ok s ∧ s.splice_descriptors = none := by
  refine ⟨?_, parse_section_body_descriptors_none h1⟩
  unfold parse
  rw [h1]
  dsimp only
  rw [if_pos h2, h3]

/-- Claim C3 witness: the amended statement instantiated on
`C3_section_bytes`. -/
theorem claim_C3_witness :
    parse C3_section_bytes = .ok C3_section ∧
    C3_section.splice_descriptors = none :=
  claim_C3_amended C3_section_bytes C3_section
    (bytesToBits [0x01, 0x00, 0x02, 0x05, 0xAA]) .outOfData
    (by rfl) (by decide) (by rfl)

/-- Claim C4 counterexample: with budget 1 and region `01 03 FF`, the
first descriptor's `length + 2 = 5` drives the budget to `-4`, yet the
loop performs a further iteration and decodes a second descriptor (tag
0xFF) — the claim said a negative budget ends the loop with no further
iterations, which would have produced the one-element list. -/
theorem claim_C4_counterexample :
    parse_splice_descriptors (bytesToBits [0x01, 0x03, 0xFF]) 1 =
      .ok ([SpliceDesc.generic 1 3, SpliceDesc.generic 255 0], []) := by
  rfl

/-- Claim C4 amended: the loop stops with the budget at exactly zero
(returning the accumulated list unchanged), while a negative budget never
ends the loop immediately: the loop keeps going and either raises or
appends at least one more descriptor. -/
theorem claim_C4_amended (ba : BS) (length : Int) :
    (length = 0 → parse_splice_descriptors ba length = .ok ([], ba)) ∧
    (length < 0 →
      (∃ e, parse_splice_descriptors ba length = .error e) ∨
      (∃ res ba', parse_splice_descriptors ba length = .ok (res, ba') ∧
        res ≠ [])) := by
  constructor
  · intro h
    subst h
    simp [parse_splice_descriptors, descriptor_loop_fuel]
  · intro h
    rcases descriptor_loop_fuel_neg (ba.length + 1) length ba [] h with
      ⟨e, he⟩ | ⟨res, ba', heq, hlt⟩
    · exact .inl ⟨e, he⟩
    · refine .inr ⟨res, ba', heq, ?_⟩
      intro hres
      subst hres
      simp at hlt

/-- Claim C4 witness: the amended statement at budget 0 and at budget -1
on the empty buffer. -/
theorem claim_C4_witness :
    parse_splice_descriptors ([] : BS) 0 = .ok ([], []) ∧
    ((∃ e, parse_splice_descriptors ([] : BS) (-1) = .error e) ∨
      (∃ res ba', parse_splice_descriptors ([] : BS) (-1) = .ok (res, ba') ∧
        res ≠ [])) :=
  ⟨(claim_C4_amended [] 0).1 rfl, (claim_C4_amended [] (-1)).2 (by decide)⟩

/-- Claim C5: a decoded splice_insert with `program_splice_flag` clear
records an 8-bit `component_count` equal to the length of its decoded
component list, and each component carries a `splice_time` iff
`splice_immediate_flag` was set (count 0 gives the empty list). -/
theorem claim_C5_components (ba ba' : BS) (si : SpliceInsert)
    (h : parse_splice_insert ba = .ok (some si, ba'))
    (hp : si.program_splice_flag = false) :
    si.component_count = some si.components.length ∧
    ∀ c ∈ si.components, c.splice_time.isSome = si.splice_immediate_flag :=
  (parse_splice_insert_ok_some h).2.2 hp

/-- Claim C5 witness: instantiated on `C5_input` (one component, tag 7,
immediate flag clear). -/
theorem claim_C5_witness :
    C5_si.component_count = some C5_si.components.length ∧
    ∀ c ∈ C5_si.components, c.splice_time.isSome = C5_si.splice_immediate_flag :=
  claim_C5_components (bytesToBits C5_input) [] C5_si (by rfl) (by rfl)

/-- Claim C6: any input whose first byte is not 0xFC fails with the
invalid-table-id error; the decode returns only the error, no section
fields. -/
theorem claim_C6_invalid_table_id (b : Nat) (rest : List Nat)
    (hb : b < 256) (hneq : b ≠ 0xfc) :
    parse (b :: rest) = .error (.invalidTableId b) := by
  unfold parse parse_section_body
  rw [bytesToBits_cons, readUint_eight_byte b hb]
  dsimp only
  rw [if_pos hneq]

/-- Claim C6 witness: first byte 0x47. -/
theorem claim_C6_witness : parse [0x47] = .error (.invalidTableId 0x47) :=
  claim_C6_invalid_table_id 0x47 [] (by decide) (by decide)

/-- Claim C7: in the segmentation-descriptor tail (reached exactly on the
non-cancelled path), the sub-segment fields are populated iff the raw
pre-lookup two-hex-digit type id is "34" or "36" — the gate tests the raw
code before the table substitution — and in particular raw code "35"
yields no sub-segment fields. -/
theorem claim_C7_subsegment_gate (ba ba1 ba' : BS) (raw : String)
    (d0 d : SegmentationDescriptor)
    (h0 : d0.sub_segment_num = none) (h1 : d0.sub_segments_expected = none)
    (hr : readHexBits 8 ba = .ok (raw, ba1))
    (h : parse_seg_type_tail d0 ba = .ok (d, ba')) :
    ((d.sub_segment_num.isSome ∧ d.sub_segments_expected.isSome) ↔
      (raw = "34" ∨ raw = "36")) ∧
    (raw = "35" → d.sub_segment_num = none ∧ d.sub_segments_expected = none) := by
  unfold parse_seg_type_tail at h
  rw [hr] at h
  dsimp only at h
  by_cases hcond : raw = "34" ∨ raw = "36"
  · simp only [if_pos hcond] at h
    repeat' split at h
    all_goals try exact Except.noConfusion h
    obtain ⟨hs1, hs2⟩ := apply_type_lookup_subs h
    dsimp only at hs1 hs2
    constructor
    · simp [hs1, hs2, hcond]
    · intro h35
      subst h35
      rcases hcond with hc | hc <;> exact absurd hc (by decide)
  · simp only [if_neg hcond] at h
    repeat' split at h
    all_goals try exact Except.noConfusion h
    obtain ⟨hs1, hs2⟩ := apply_type_lookup_subs h
    dsimp only at hs1 hs2
    rw [h0] at hs1
    rw [h1] at hs2
    constructor
    · simp [hs1, hs2, hcond]
    · intro h35
      exact ⟨hs1, hs2⟩

/-- Claim C7 witness: raw code "34" with segment_num 1, segments_expected
2, sub-segment fields 3 and 4. -/
theorem claim_C7_witness :
    ((C7_d.sub_segment_num.isSome ∧ C7_d.sub_segments_expected.isSome) ↔
      ("34" = "34" ∨ "34" = "36")) ∧
    ("34" = "35" → C7_d.sub_segment_num = none ∧
      C7_d.sub_segments_expected = none) :=
  claim_C7_subsegment_gate (bytesToBits [0x34, 1, 2, 3, 4])
    (bytesToBits [1, 2, 3, 4]) [] "34" C7_d0 C7_d
    (by rfl) (by rfl) (by rfl) (by rfl)

/-- Claim C8: the segmentation type-id is resolved through the fixed
`SEGMENTATION_TYPE_IDS` table: a descriptor with type-id byte 0x22
decodes with label "Break Start", and one with 0x99 — absent from the
table — keeps the literal hex string "99". -/
theorem claim_C8_type_id_lookup :
    Except.map (fun p => p.1.segmentation_type_id)
        (parse_segmentation_descriptor (bytesToBits (C8_body 0x22)) 2 15) =
      .ok (some "Break Start") ∧
    Except.map (fun p => p.1.segmentation_type_id)
        (parse_segmentation_descriptor (bytesToBits (C8_body 0x99)) 2 15) =
      .ok (some "99") := by
  exact ⟨rfl, rfl⟩

/-- Claim C9 counterexample: on `C9_section_bytes` (descriptor loop
length 0) the returned section's `splice_descriptors` is `None`, not an
empty sequence. -/
theorem claim_C9_counterexample :
    parse C9_section_bytes = .ok C9_section ∧
    C9_section.splice_descriptors ≠ some [] := by
  exact ⟨rfl, by simp [C9_section]⟩

/-- Claim C9 amended: when `splice_descriptor_loop_length` decodes to 0,
the descriptor loop is never entered and the returned section keeps its
preset `splice_descriptors = None` (no sequence, empty or otherwise). -/
theorem claim_C9_amended (input_bytes : List Nat) (s : SpliceInfoSection)
    (ba : BS)
    (h1 : parse_section_body (bytesToBits input_bytes) = .ok (s, ba))
    (h2 : s.splice_descriptor_loop_length = 0) :
    parse input_bytes = .ok s ∧ s.splice_descriptors = none := by
  refine ⟨?_, parse_section_body_descriptors_none h1⟩
  unfold parse
  rw [h1]
  dsimp only
  rw [if_neg (by omega)]

/-- Claim C9 witness: the amended statement instantiated on
`C9_section_bytes`. -/
theorem claim_C9_witness :
    parse C9_section_bytes = .ok C9_section ∧
    C9_section.splice_descriptors = none :=
  claim_C9_amended C9_section_bytes C9_section [] (by rfl) (by rfl)

/-- Claim C10: every successfully decoded (non-`None`) splice_insert has
the cancel indicator clear and always carries the `components` list —
which is empty when `program_splice_flag` is set, even though the format
attaches components only to the `program_splice_flag = false` case. -/
theorem claim_C10_components_field (ba ba' : BS) (si : SpliceInsert)
    (h : parse_splice_insert ba = .ok (some si, ba')) :
    si.splice_event_cancel_indicator = false ∧
    (si.program_splice_flag = true → si.components = []) :=
  ⟨(parse_splice_insert_ok_some h).1,
   fun hp => ((parse_splice_insert_ok_some h).2.1 hp).1⟩

/-- Claim C10 witness: instantiated on `C10_input`
(`program_splice_flag = true`, empty component list). -/
theorem claim_C10_witness :
    C10_si.splice_event_cancel_indicator = false ∧
    (C10_si.program_splice_flag = true → C10_si.components = []) :=
  claim_C10_components_field (bytesToBits C10_input) [] C10_si (by rfl)

end Scte35
